import Mathlib

/-!
Verification of the POI normalization and contextual recommendation engine
(`backend/src/services/osmService.ts` and `backend/src/services/locationService.ts`).

The TypeScript code is shallowly embedded: JS objects become structures,
`Record<string, string>` tag dictionaries become association lists,
optional fields become `Option`, and JS truthiness of a string value
(`undefined` and `""` are falsy) is modelled by `jsTruthy`.  Numeric POI
coordinates are modelled by `ℚ` (they are only carried around, never
computed with, in the functions under study); the haversine distance is
modelled separately over `ℝ`.  The ambient current hour read from
`new Date().getHours()` is passed as an explicit parameter.
-/

/-- From `shared/types`: a latitude/longitude pair, polymorphic in the number type. -/
structure Coordinates (α : Type) where
  lat : α
  lon : α
deriving DecidableEq, Repr

/-- From `shared/types`: the canonical POI entity. -/
structure POI where
  id : String
  name : String
  coordinates : Coordinates ℚ
  category : String
  subcategory : Option String
  description : Option String
  address : Option String
  website : Option String
  phone : Option String
  openingHours : Option String
  tags : List (String × String)
deriving DecidableEq, Repr

/-- From `shared/types`: user context passed to the recommendation engine. -/
structure UserContext where
  location : Coordinates ℚ
  preferences : Option (List String)
  searchRadius : Option ℚ
  language : Option String
deriving DecidableEq, Repr

/-- Lookup of a key in a JS `Record<string, string>` modelled as an
association list; `none` models `undefined`. -/
def tagLookup (tags : List (String × String)) (k : String) : Option String :=
  (tags.find? (fun kv => kv.1 == k)).map (fun kv => kv.2)

/-- JS truthiness of an optional string: `undefined` and `""` are falsy. -/
def jsTruthy : Option String → Bool
  | none => false
  | some v => v != ""

/-- JS `a || b` on optional strings. -/
def jsOrS (a b : Option String) : Option String :=
  if jsTruthy a then a else b

/-- JS `a || d` on an optional string with a (truthy) string default. -/
def jsOrStr (a : Option String) (d : String) : String :=
  if jsTruthy a then a.getD "" else d

/-- A raw Overpass tagged-node record (`element` in `parseOverpassResponse`):
numeric id, coordinates, and an optional tag dictionary (`element.tags || {}`). -/
structure OsmElement where
  id : Nat
  lat : ℚ
  lon : ℚ
  tags : Option (List (String × String))
deriving DecidableEq, Repr

/-- The body of an Overpass reply; `elements` is `none` when the field is
absent (`if (!data.elements) return []`). -/
structure OverpassData where
  elements : Option (List OsmElement)
deriving DecidableEq, Repr

/-- From `osmService.ts` `determineCategory` result shape `{ main, sub? }`. -/
structure MainSub where
  main : String
  sub : Option String
deriving DecidableEq, Repr

/-- From `osmService.ts` lines 184–198: `determineCategory(tags)`.  Each
`if (tags.x)` is a JS truthiness test on the tag value. -/
def determineCategory (tags : List (String × String)) : MainSub :=
  if jsTruthy (tagLookup tags "amenity") then
    { main := "amenity", sub := tagLookup tags "amenity" }
  else if jsTruthy (tagLookup tags "tourism") then
    { main := "tourism", sub := tagLookup tags "tourism" }
  else if jsTruthy (tagLookup tags "shop") then
    { main := "shopping", sub := tagLookup tags "shop" }
  else if jsTruthy (tagLookup tags "leisure") then
    { main := "leisure", sub := tagLookup tags "leisure" }
  else
    { main := "other", sub := none }

/-- From `osmService.ts` `generateDescription(tags)`: collect cuisine, free-text
description and a Wikipedia marker, join with `". "`; `join(...) || undefined`
turns the empty join into an absent field. -/
def generateDescription (tags : List (String × String)) : Option String :=
  let descriptions :=
    (if jsTruthy (tagLookup tags "cuisine") then
      ["Cuisine: " ++ (tagLookup tags "cuisine").getD ""] else []) ++
    (if jsTruthy (tagLookup tags "description") then
      [(tagLookup tags "description").getD ""] else []) ++
    (if jsTruthy (tagLookup tags "wikipedia") then
      ["Has Wikipedia entry"] else [])
  let joined := String.intercalate ". " descriptions
  if joined == "" then none else some joined

/-- From `osmService.ts` `formatAddress(tags)`: house number, street, city,
postcode joined with `", "`; empty join becomes an absent field. -/
def formatAddress (tags : List (String × String)) : Option String :=
  let addressParts :=
    (if jsTruthy (tagLookup tags "addr:housenumber") then
      [(tagLookup tags "addr:housenumber").getD ""] else []) ++
    (if jsTruthy (tagLookup tags "addr:street") then
      [(tagLookup tags "addr:street").getD ""] else []) ++
    (if jsTruthy (tagLookup tags "addr:city") then
      [(tagLookup tags "addr:city").getD ""] else []) ++
    (if jsTruthy (tagLookup tags "addr:postcode") then
      [(tagLookup tags "addr:postcode").getD ""] else [])
  let joined := String.intercalate ", " addressParts
  if joined == "" then none else some joined

/-- Name resolution in `parseOverpassResponse`:
`tags.name || tags.brand || 'Unnamed Location'`. -/
def resolveName (tags : List (String × String)) : String :=
  if jsTruthy (tagLookup tags "name") then (tagLookup tags "name").getD ""
  else if jsTruthy (tagLookup tags "brand") then (tagLookup tags "brand").getD ""
  else "Unnamed Location"

/-- The map body of `parseOverpassResponse` (lines 149–164): one raw
element to one candidate POI. -/
def toPOI (element : OsmElement) : POI :=
  let tags := element.tags.getD []
  let category := determineCategory tags
  { id := "osm_" ++ toString element.id
    name := resolveName tags
    coordinates := { lat := element.lat, lon := element.lon }
    category := category.main
    subcategory := category.sub
    description := generateDescription tags
    address := formatAddress tags
    website := jsOrS (tagLookup tags "website") (tagLookup tags "contact:website")
    phone := jsOrS (tagLookup tags "phone") (tagLookup tags "contact:phone")
    openingHours := tagLookup tags "opening_hours"
    tags := tags }

/-- From `osmService.ts` lines 142–166: `parseOverpassResponse` — map raw
elements to POIs and drop every POI whose name is the placeholder. -/
def parseOverpassResponse (data : OverpassData) : List POI :=
  match data.elements with
  | none => []
  | some elements =>
      (elements.map toPOI).filter (fun poi => poi.name != "Unnamed Location")

/-- From `locationService.ts` bucket record returned by `categorizeNearbyPlaces`. -/
structure CategorizedPOIs where
  restaurants : List POI
  attractions : List POI
  shopping : List POI
  services : List POI
  other : List POI
deriving DecidableEq, Repr

/-- From `locationService.ts` lines 59–99: `categorizeNearbyPlaces` — the
`forEach`/`switch` loop pushing each POI into exactly one bucket, embedded
as structural recursion that preserves the push order. -/
def categorizeNearbyPlaces : List POI → CategorizedPOIs
  | [] => { restaurants := [], attractions := [], shopping := [], services := [], other := [] }
  | poi :: rest =>
    let c := categorizeNearbyPlaces rest
    match poi.category with
    | "amenity" =>
        if ["restaurant", "cafe", "bar", "pub", "fast_food"].contains (poi.subcategory.getD "") then
          { c with restaurants := poi :: c.restaurants }
        else
          { c with services := poi :: c.services }
    | "tourism" => { c with attractions := poi :: c.attractions }
    | "shopping" => { c with shopping := poi :: c.shopping }
    | "shop" => { c with shopping := poi :: c.shopping }
    | "leisure" => { c with attractions := poi :: c.attractions }
    | _ => { c with other := poi :: c.other }

/-- Substring test modelling JS `String.prototype.includes`. -/
def charsStartsWith : List Char → List Char → Bool
  | [], _ => true
  | _ :: _, [] => false
  | p :: ps, c :: cs => p == c && charsStartsWith ps cs

/-- Does `pat` occur as a contiguous substring of `s`? -/
def charsContains (pat : List Char) : List Char → Bool
  | [] => charsStartsWith pat []
  | c :: cs => charsStartsWith pat (c :: cs) || charsContains pat cs

/-- JS `s.includes(pat)`. -/
def strIncludes (s pat : String) : Bool :=
  charsContains pat.toList s.toList

/-- From `locationService.ts` recommendation bundle shape. -/
structure Recommendations where
  immediate : List POI
  nearby : List POI
  categories : List String
  tips : List String
deriving DecidableEq, Repr

/-- The four-branch time-of-day `if`/`else if` chain of
`generateRecommendations` (lines 119–164), producing
`(immediate, categories, tips)` from the categorized buckets.  Filters
translate the JS predicates literally: `p.subcategory === 'cafe'` is
`p.subcategory == some "cafe"`, `p.tags.breakfast === 'yes'` is a tag
lookup, and `p.tags.opening_hours?.includes('24/7')` is a lookup followed
by a substring test (absent tag is falsy). -/
def immediateFor (hour : Nat) (categorized : CategorizedPOIs) :
    List POI × List String × List String :=
  if 7 ≤ hour ∧ hour ≤ 10 then
    ((categorized.restaurants.filter (fun p =>
        p.subcategory == some "cafe" || tagLookup p.tags "breakfast" == some "yes")).take 3 ++
      categorized.attractions.take 2,
     ["breakfast", "coffee", "morning attractions"],
     ["Perfect time for a coffee and sightseeing!"])
  else if 11 ≤ hour ∧ hour ≤ 14 then
    ((categorized.restaurants.filter (fun p =>
        ["restaurant", "fast_food"].contains (p.subcategory.getD ""))).take 3 ++
      categorized.shopping.take 2,
     ["lunch", "shopping", "attractions"],
     ["Great time for lunch and some shopping!"])
  else if 15 ≤ hour ∧ hour ≤ 18 then
    (categorized.attractions.take 3 ++
      (categorized.restaurants.filter (fun p => p.subcategory == some "cafe")).take 2,
     ["attractions", "coffee", "culture"],
     ["Perfect time to explore attractions and enjoy a coffee break!"])
  else
    ((categorized.restaurants.filter (fun p =>
        ["restaurant", "bar", "pub"].contains (p.subcategory.getD ""))).take 3 ++
      (categorized.attractions.filter (fun p =>
        (match tagLookup p.tags "opening_hours" with
         | some s => strIncludes s "24/7"
         | none => false) || p.category == "tourism")).take 2,
     ["dinner", "nightlife", "evening attractions"],
     ["Time for dinner and evening entertainment!"])

/-- From `locationService.ts` lines 101–172: `generateRecommendations`.  The
ambient `new Date().getHours()` is the explicit `hour` parameter; the
`userContext` argument is carried but (as in the source) never consulted.
`nearby` is `pois.filter(poi => !immediate.includes(poi)).slice(0, 5)`. -/
def generateRecommendations (hour : Nat) (userContext : UserContext)
    (pois : List POI) : Recommendations :=
  let categorized := categorizeNearbyPlaces pois
  let sel := immediateFor hour categorized
  { immediate := sel.1
    nearby := (pois.filter (fun poi => decide (poi ∉ sel.1))).take 5
    categories := sel.2.1
    tips := sel.2.2 }

/-- Address component record of a Nominatim reverse-geocode reply, as read
by `analyzeAreaContext` (`locationInfo?.address?.suburb` etc.). -/
structure AddressInfo where
  suburb : Option String
  neighbourhood : Option String
  city : Option String
deriving DecidableEq, Repr

/-- A reverse-geocode record; only its optional `address` is consulted. -/
structure LocationInfo where
  address : Option AddressInfo
deriving DecidableEq, Repr

/-- From `locationService.ts` contextual summary shape. -/
structure ContextualInfo where
  area : String
  cityType : String
  touristArea : Bool
  suggestions : List String
deriving DecidableEq, Repr

/-- From `locationService.ts` lines 174–215: `analyzeAreaContext`.  The two
sequential mutations of `cityType`/`suggestions` are embedded as two
conditional rebindings in the same order as the source. -/
def analyzeAreaContext (locationInfo : Option LocationInfo) (pois : List POI) :
    ContextualInfo :=
  let touristPOIs := (pois.filter (fun poi => poi.category == "tourism")).length
  let restaurantPOIs := (pois.filter (fun poi =>
    poi.category == "amenity" &&
      ["restaurant", "cafe", "bar"].contains (poi.subcategory.getD ""))).length
  let step1 :=
    if touristPOIs > 3 then
      (true, "tourist",
       ["This appears to be a popular tourist area",
        "Consider visiting multiple attractions within walking distance"])
    else (false, "residential", ([] : List String))
  let step2 :=
    if restaurantPOIs > 5 then
      ("commercial", step1.2.2 ++ ["Great dining options in this area"])
    else (step1.2.1, step1.2.2)
  let addr := locationInfo.bind (fun li => li.address)
  let areaName :=
    jsOrStr (addr.bind (fun a => a.suburb))
      (jsOrStr (addr.bind (fun a => a.neighbourhood))
        (jsOrStr (addr.bind (fun a => a.city)) "Unknown Area"))
  { area := areaName
    cityType := step2.1
    touristArea := step1.1
    suggestions := step2.2 }

/-- Result shape of `enrichLocationContext`. -/
structure EnrichResult where
  locationInfo : Option LocationInfo
  nearbyPOIs : List POI
  contextualInfo : ContextualInfo
deriving DecidableEq, Repr

/-- From `osmService.ts` lines 8–30: `getNearbyPOIs` wraps the Overpass fetch in
`try`/`catch` and returns `[]` on any upstream error; the fetch outcome is
the explicit `Except` argument. -/
def getNearbyPOIsResult (fetch : Except String OverpassData) : List POI :=
  match fetch with
  | .error _ => []
  | .ok data => parseOverpassResponse data

/-- From `osmService.ts` `getLocationInfo` wraps the Nominatim fetch in
`try`/`catch` and returns `null` on any upstream error. -/
def getLocationInfoResult (fetch : Except String LocationInfo) : Option LocationInfo :=
  match fetch with
  | .error _ => none
  | .ok info => some info

/-- The constant returned by the `catch` branch of `enrichLocationContext`
(lines 44–56): the documented safe-empty default. -/
def enrichSafeDefault : EnrichResult :=
  { locationInfo := none
    nearbyPOIs := []
    contextualInfo :=
      { area := "Unknown", cityType := "unknown", touristArea := false, suggestions := [] } }

/-- From `locationService.ts` lines 11–57: `enrichLocationContext`.  Both inner
service calls catch their own upstream failures (returning `null` / `[]`),
so the `try` body is total and the outer `catch` (whose handler returns
`enrichSafeDefault`) is never reached on a fetch failure; the embedding is
therefore the straight-line composition of the two caught fetch results. -/
def enrichLocationContext (locFetch : Except String LocationInfo)
    (poiFetch : Except String OverpassData) : EnrichResult :=
  let locationInfo := getLocationInfoResult locFetch
  let nearbyPOIs := getNearbyPOIsResult poiFetch
  { locationInfo := locationInfo
    nearbyPOIs := nearbyPOIs
    contextualInfo := analyzeAreaContext locationInfo nearbyPOIs }

/-!  GeoMath: `calculateDistance` (osmService.ts lines 221–234), embedded
over the idealized reals; `Math.atan2`, `Math.round` and the trigonometric
functions are the mathematical ones. -/

/-- From `Math.atan2(y, x)`: the standard four-quadrant arctangent. -/
noncomputable def atan2 (y x : ℝ) : ℝ :=
  if 0 < x then Real.arctan (y / x)
  else if x < 0 ∧ 0 ≤ y then Real.arctan (y / x) + Real.pi
  else if x < 0 ∧ y < 0 then Real.arctan (y / x) - Real.pi
  else if x = 0 ∧ 0 < y then Real.pi / 2
  else if x = 0 ∧ y < 0 then -(Real.pi / 2)
  else 0

/-- From `Math.round`: round half up, `⌊x + 1/2⌋`. -/
noncomputable def jsRound (x : ℝ) : ℤ := ⌊x + 1 / 2⌋

/-- The intermediate `a` of `calculateDistance`:
`sin(Δφ/2)·sin(Δφ/2) + cos φ1 · cos φ2 · sin(Δλ/2)·sin(Δλ/2)`. -/
noncomputable def havA (p q : Coordinates ℝ) : ℝ :=
  Real.sin ((q.lat - p.lat) * Real.pi / 180 / 2) *
      Real.sin ((q.lat - p.lat) * Real.pi / 180 / 2) +
    Real.cos (p.lat * Real.pi / 180) * Real.cos (q.lat * Real.pi / 180) *
      (Real.sin ((q.lon - p.lon) * Real.pi / 180 / 2) *
        Real.sin ((q.lon - p.lon) * Real.pi / 180 / 2))

/-- From `osmService.ts` lines 221–234: haversine distance with Earth radius
`6371e3` m, `c = 2·atan2(√a, √(1−a))`, result `Math.round(R·c)`. -/
noncomputable def calculateDistance (p q : Coordinates ℝ) : ℤ :=
  jsRound (6371000 * (2 * atan2 (Real.sqrt (havA p q)) (Real.sqrt (1 - havA p q))))

/-!  Bucket characterization for `categorizeNearbyPlaces` (C3). -/

/-- Rule-table predicate: amenity with a dining subcategory. -/
def isRestaurantPOI (p : POI) : Bool :=
  p.category == "amenity" &&
    ["restaurant", "cafe", "bar", "pub", "fast_food"].contains (p.subcategory.getD "")

/-- Rule-table predicate: any other amenity. -/
def isServicePOI (p : POI) : Bool :=
  p.category == "amenity" &&
    !(["restaurant", "cafe", "bar", "pub", "fast_food"].contains (p.subcategory.getD ""))

/-- Rule-table predicate: tourism or leisure. -/
def isAttractionPOI (p : POI) : Bool :=
  p.category == "tourism" || p.category == "leisure"

/-- Rule-table predicate: shopping (or raw shop). -/
def isShoppingPOI (p : POI) : Bool :=
  p.category == "shopping" || p.category == "shop"

/-- Rule-table predicate: everything else. -/
def isOtherPOI (p : POI) : Bool :=
  !(p.category == "amenity") && !(p.category == "tourism") &&
    !(p.category == "shopping") && !(p.category == "shop") && !(p.category == "leisure")

/-!  Time-of-day policy view of `generateRecommendations` (C7). -/

/-- The four time-of-day buckets of the recommendation policy. -/
inductive TimePolicy where
  | morning
  | midday
  | afternoon
  | evening
deriving DecidableEq, Repr

/-- The fixed hour ranges of the spec: morning [7,10], midday [11,14],
afternoon [15,18], otherwise evening. -/
def hourPolicy (hour : Nat) : TimePolicy :=
  if 7 ≤ hour ∧ hour ≤ 10 then .morning
  else if 11 ≤ hour ∧ hour ≤ 14 then .midday
  else if 15 ≤ hour ∧ hour ≤ 18 then .afternoon
  else .evening

/-- The per-policy selection table, one entry per time bucket. -/
def policyApply : TimePolicy → CategorizedPOIs → List POI × List String × List String
  | .morning, categorized =>
    ((categorized.restaurants.filter (fun p =>
        p.subcategory == some "cafe" || tagLookup p.tags "breakfast" == some "yes")).take 3 ++
      categorized.attractions.take 2,
     ["breakfast", "coffee", "morning attractions"],
     ["Perfect time for a coffee and sightseeing!"])
  | .midday, categorized =>
    ((categorized.restaurants.filter (fun p =>
        ["restaurant", "fast_food"].contains (p.subcategory.getD ""))).take 3 ++
      categorized.shopping.take 2,
     ["lunch", "shopping", "attractions"],
     ["Great time for lunch and some shopping!"])
  | .afternoon, categorized =>
    (categorized.attractions.take 3 ++
      (categorized.restaurants.filter (fun p => p.subcategory == some "cafe")).take 2,
     ["attractions", "coffee", "culture"],
     ["Perfect time to explore attractions and enjoy a coffee break!"])
  | .evening, categorized =>
    ((categorized.restaurants.filter (fun p =>
        ["restaurant", "bar", "pub"].contains (p.subcategory.getD ""))).take 3 ++
      (categorized.attractions.filter (fun p =>
        (match tagLookup p.tags "opening_hours" with
         | some s => strIncludes s "24/7"
         | none => false) || p.category == "tourism")).take 2,
     ["dinner", "nightlife", "evening attractions"],
     ["Time for dinner and evening entertainment!"])

/-- A minimal POI value for concrete test inputs. -/
def testPOI (id : String) (category : String) (subcategory : Option String)
    (tags : List (String × String)) : POI :=
  { id := id, name := id, coordinates := { lat := 0, lon := 0 }, category := category
    subcategory := subcategory, description := none, address := none, website := none
    phone := none, openingHours := none, tags := tags }

/-- A concrete user context for test inputs. -/
def testUserContext : UserContext :=
  { location := { lat := 0, lon := 0 }, preferences := none
    searchRadius := none, language := none }

/-- Six distinct POIs of an unrecognized category: none is ever selected
into `immediate`, and `nearby` keeps only the first five of them. -/
def testSixOther : List POI :=
  ["a", "b", "c", "d", "e", "f"].map (fun i => testPOI i "x" none [])

/-- Four distinct tourism POIs. -/
def testFourTourism : List POI :=
  ["t1", "t2", "t3", "t4"].map (fun i => testPOI i "tourism" none [])

/-- Three distinct tourism POIs. -/
def testThreeTourism : List POI :=
  ["t1", "t2", "t3"].map (fun i => testPOI i "tourism" none [])

/-- A record whose name tag is literally the placeholder string. -/
def testElemPlaceholderName : OsmElement :=
  { id := 2, lat := 0, lon := 0, tags := some [("name", "Unnamed Location")] }

/-!  Lemmas about the haversine term. -/

lemma havA_self (p : Coordinates ℝ) : havA p p = 0 := by
  simp [havA]

lemma havA_comm (p q : Coordinates ℝ) : havA p q = havA q p := by
  unfold havA
  have h1 : (p.lat - q.lat) * Real.pi / 180 / 2 =
      -((q.lat - p.lat) * Real.pi / 180 / 2) := by ring
  have h2 : (p.lon - q.lon) * Real.pi / 180 / 2 =
      -((q.lon - p.lon) * Real.pi / 180 / 2) := by ring
  rw [h1, h2]
  simp only [Real.sin_neg]
  ring

lemma atan2_zero_one : atan2 0 1 = 0 := by
  unfold atan2
  rw [if_pos one_pos]
  simp [Real.arctan_zero]

/-- C9: `calculateDistance(a, a) = 0` for every coordinate `a`, and
`calculateDistance` is symmetric in its two arguments (here exactly, hence
in particular within rounding tolerance), for the haversine distance with
Earth radius 6,371,000 m rounded to the nearest whole meter. -/
theorem calculateDistance_self_and_symm (p q : Coordinates ℝ) :
    calculateDistance p p = 0 ∧ calculateDistance p q = calculateDistance q p := by
  constructor
  · unfold calculateDistance
    rw [havA_self, Real.sqrt_zero, sub_zero, Real.sqrt_one, atan2_zero_one]
    unfold jsRound
    have h : (6371000 : ℝ) * (2 * 0) + 1 / 2 = 1 / 2 := by norm_num
    rw [h, Int.floor_eq_zero_iff]
    constructor <;> norm_num
  · unfold calculateDistance
    rw [havA_comm]

lemma categorize_eq (pois : List POI) :
    categorizeNearbyPlaces pois =
      { restaurants := pois.filter isRestaurantPOI
        attractions := pois.filter isAttractionPOI
        shopping := pois.filter isShoppingPOI
        services := pois.filter isServicePOI
        other := pois.filter isOtherPOI } := by
  induction pois with
  | nil => rfl
  | cons poi rest ih =>
    simp only [categorizeNearbyPlaces]
    split
    · rename_i heq
      split
      · rename_i hsub
        simp at hsub
        have e1 : isRestaurantPOI poi = true := by simp [isRestaurantPOI, heq] <;> tauto
        have e2 : isAttractionPOI poi = false := by simp [isAttractionPOI, heq]
        have e3 : isShoppingPOI poi = false := by simp [isShoppingPOI, heq]
        have e4 : isServicePOI poi = false := by simp [isServicePOI, heq] <;> tauto
        have e5 : isOtherPOI poi = false := by simp [isOtherPOI, heq]
        simp [List.filter_cons, e1, e2, e3, e4, e5, ih]
      · rename_i hsub
        simp at hsub
        have e1 : isRestaurantPOI poi = false := by simp [isRestaurantPOI, heq] <;> tauto
        have e2 : isAttractionPOI poi = false := by simp [isAttractionPOI, heq]
        have e3 : isShoppingPOI poi = false := by simp [isShoppingPOI, heq]
        have e4 : isServicePOI poi = true := by simp [isServicePOI, heq] <;> tauto
        have e5 : isOtherPOI poi = false := by simp [isOtherPOI, heq]
        simp [List.filter_cons, e1, e2, e3, e4, e5, ih]
    · rename_i heq
      have e1 : isRestaurantPOI poi = false := by simp [isRestaurantPOI, heq]
      have e2 : isAttractionPOI poi = true := by simp [isAttractionPOI, heq]
      have e3 : isShoppingPOI poi = false := by simp [isShoppingPOI, heq]
      have e4 : isServicePOI poi = false := by simp [isServicePOI, heq]
      have e5 : isOtherPOI poi = false := by simp [isOtherPOI, heq]
      simp [List.filter_cons, e1, e2, e3, e4, e5, ih]
    · rename_i heq
      have e1 : isRestaurantPOI poi = false := by simp [isRestaurantPOI, heq]
      have e2 : isAttractionPOI poi = false := by simp [isAttractionPOI, heq]
      have e3 : isShoppingPOI poi = true := by simp [isShoppingPOI, heq]
      have e4 : isServicePOI poi = false := by simp [isServicePOI, heq]
      have e5 : isOtherPOI poi = false := by simp [isOtherPOI, heq]
      simp [List.filter_cons, e1, e2, e3, e4, e5, ih]
    · rename_i heq
      have e1 : isRestaurantPOI poi = false := by simp [isRestaurantPOI, heq]
      have e2 : isAttractionPOI poi = false := by simp [isAttractionPOI, heq]
      have e3 : isShoppingPOI poi = true := by simp [isShoppingPOI, heq]
      have e4 : isServicePOI poi = false := by simp [isServicePOI, heq]
      have e5 : isOtherPOI poi = false := by simp [isOtherPOI, heq]
      simp [List.filter_cons, e1, e2, e3, e4, e5, ih]
    · rename_i heq
      have e1 : isRestaurantPOI poi = false := by simp [isRestaurantPOI, heq]
      have e2 : isAttractionPOI poi = true := by simp [isAttractionPOI, heq]
      have e3 : isShoppingPOI poi = false := by simp [isShoppingPOI, heq]
      have e4 : isServicePOI poi = false := by simp [isServicePOI, heq]
      have e5 : isOtherPOI poi = false := by simp [isOtherPOI, heq]
      simp [List.filter_cons, e1, e2, e3, e4, e5, ih]
    · rename_i h1 h2 h3 h4 h5
      have e1 : isRestaurantPOI poi = false := by simp [isRestaurantPOI] <;> tauto
      have e2 : isAttractionPOI poi = false := by simp [isAttractionPOI] <;> tauto
      have e3 : isShoppingPOI poi = false := by simp [isShoppingPOI] <;> tauto
      have e4 : isServicePOI poi = false := by simp [isServicePOI] <;> tauto
      have e5 : isOtherPOI poi = true := by simp [isOtherPOI] <;> tauto
      simp [List.filter_cons, e1, e2, e3, e4, e5, ih]

lemma bucket_pred_exactly_one (p : POI) :
    (isRestaurantPOI p).toNat + (isAttractionPOI p).toNat + (isShoppingPOI p).toNat +
      (isServicePOI p).toNat + (isOtherPOI p).toNat = 1 := by
  unfold isRestaurantPOI isAttractionPOI isShoppingPOI isServicePOI isOtherPOI
  cases hc : ["restaurant", "cafe", "bar", "pub", "fast_food"].contains (p.subcategory.getD "") <;>
  cases hb1 : p.category == "amenity" <;>
  cases hb2 : p.category == "tourism" <;>
  cases hb3 : p.category == "shopping" <;>
  cases hb4 : p.category == "shop" <;>
  cases hb5 : p.category == "leisure" <;>
  simp_all

lemma categorize_length_sum (pois : List POI) :
    (categorizeNearbyPlaces pois).restaurants.length +
      (categorizeNearbyPlaces pois).attractions.length +
      (categorizeNearbyPlaces pois).shopping.length +
      (categorizeNearbyPlaces pois).services.length +
      (categorizeNearbyPlaces pois).other.length = pois.length := by
  induction pois with
  | nil => rfl
  | cons poi rest ih =>
    simp only [categorizeNearbyPlaces]
    split
    · split
      · try simp
        omega
      · try simp
        omega
    all_goals ((try simp); omega)

/-- C3: `categorizeNearbyPlaces` assigns each POI to exactly one of the five
buckets according to the stated rule table (restaurants = amenity with a
dining subcategory, services = other amenity, attractions = tourism or
leisure, shopping = shopping/shop, other = the rest), and the buckets
partition the input: each bucket is the corresponding filter of the input,
the five rule predicates hold for exactly one bucket on any POI, and the
bucket sizes sum to the input size (no POI lost or duplicated). -/
theorem categorizeNearbyPlaces_partition (pois : List POI) :
    (categorizeNearbyPlaces pois).restaurants = pois.filter isRestaurantPOI ∧
    (categorizeNearbyPlaces pois).services = pois.filter isServicePOI ∧
    (categorizeNearbyPlaces pois).attractions = pois.filter isAttractionPOI ∧
    (categorizeNearbyPlaces pois).shopping = pois.filter isShoppingPOI ∧
    (categorizeNearbyPlaces pois).other = pois.filter isOtherPOI ∧
    (∀ p : POI, (isRestaurantPOI p).toNat + (isAttractionPOI p).toNat +
      (isShoppingPOI p).toNat + (isServicePOI p).toNat + (isOtherPOI p).toNat = 1) ∧
    (categorizeNearbyPlaces pois).restaurants.length +
      (categorizeNearbyPlaces pois).attractions.length +
      (categorizeNearbyPlaces pois).shopping.length +
      (categorizeNearbyPlaces pois).services.length +
      (categorizeNearbyPlaces pois).other.length = pois.length := by
  refine ⟨?_, ?_, ?_, ?_, ?_, fun p => bucket_pred_exactly_one p, categorize_length_sum pois⟩
  all_goals rw [categorize_eq]

lemma immediateFor_eq_policy (hour : Nat) (cat : CategorizedPOIs) :
    immediateFor hour cat = policyApply (hourPolicy hour) cat := by
  unfold immediateFor hourPolicy
  split_ifs <;> rfl

lemma genRec_def (hour : Nat) (uc : UserContext) (pois : List POI) :
    generateRecommendations hour uc pois =
      { immediate := (immediateFor hour (categorizeNearbyPlaces pois)).1
        nearby := (pois.filter (fun poi =>
          decide (poi ∉ (immediateFor hour (categorizeNearbyPlaces pois)).1))).take 5
        categories := (immediateFor hour (categorizeNearbyPlaces pois)).2.1
        tips := (immediateFor hour (categorizeNearbyPlaces pois)).2.2 } := rfl

lemma mem_of_mem_take {α : Type} {l : List α} {n : Nat} {a : α}
    (h : a ∈ l.take n) : a ∈ l :=
  (List.take_sublist n l).mem h

lemma immediateFor_mem (hour : Nat) (cat : CategorizedPOIs) (p : POI)
    (hp : p ∈ (immediateFor hour cat).1) :
    p ∈ cat.restaurants ∨ p ∈ cat.attractions ∨ p ∈ cat.shopping := by
  unfold immediateFor at hp
  split_ifs at hp
  · rcases List.mem_append.1 hp with h | h
    · exact Or.inl (List.mem_of_mem_filter (mem_of_mem_take h))
    · exact Or.inr (Or.inl (mem_of_mem_take h))
  · rcases List.mem_append.1 hp with h | h
    · exact Or.inl (List.mem_of_mem_filter (mem_of_mem_take h))
    · exact Or.inr (Or.inr (mem_of_mem_take h))
  · rcases List.mem_append.1 hp with h | h
    · exact Or.inr (Or.inl (mem_of_mem_take h))
    · exact Or.inl (List.mem_of_mem_filter (mem_of_mem_take h))
  · rcases List.mem_append.1 hp with h | h
    · exact Or.inl (List.mem_of_mem_filter (mem_of_mem_take h))
    · exact Or.inr (Or.inl (List.mem_of_mem_filter (mem_of_mem_take h)))

lemma immediateFor_length (hour : Nat) (cat : CategorizedPOIs) :
    (immediateFor hour cat).1.length ≤ 5 := by
  unfold immediateFor
  split_ifs <;>
  · dsimp only
    rw [List.length_append]
    exact Nat.add_le_add (List.length_take_le _ _) (List.length_take_le _ _)

lemma genRec_immediate_mem (hour : Nat) (uc : UserContext) (pois : List POI)
    (p : POI) (hp : p ∈ (generateRecommendations hour uc pois).immediate) :
    p ∈ pois := by
  simp only [genRec_def] at hp
  rcases immediateFor_mem _ _ _ hp with h | h | h <;>
  · simp only [categorize_eq] at h
    exact List.mem_of_mem_filter h

lemma genRec_nearby_mem (hour : Nat) (uc : UserContext) (pois : List POI)
    (p : POI) (hp : p ∈ (generateRecommendations hour uc pois).nearby) :
    p ∈ pois ∧ p ∉ (generateRecommendations hour uc pois).immediate := by
  simp only [genRec_def] at hp ⊢
  have h1 := mem_of_mem_take hp
  have h2 := List.mem_filter.1 h1
  exact ⟨h2.1, of_decide_eq_true h2.2⟩

lemma genRec_cover (hour : Nat) (uc : UserContext) (pois : List POI) (p : POI)
    (hp : p ∈ pois)
    (hlen : (pois.filter (fun q =>
      decide (q ∉ (generateRecommendations hour uc pois).immediate))).length ≤ 5) :
    p ∈ (generateRecommendations hour uc pois).immediate ∨
      p ∈ (generateRecommendations hour uc pois).nearby := by
  by_cases hi : p ∈ (generateRecommendations hour uc pois).immediate
  · exact Or.inl hi
  · right
    simp only [genRec_def] at hlen hi ⊢
    have hmem : p ∈ pois.filter (fun q =>
        decide (q ∉ (immediateFor hour (categorizeNearbyPlaces pois)).1)) :=
      List.mem_filter.2 ⟨hp, decide_eq_true hi⟩
    rw [List.take_of_length_le hlen]
    exact hmem

/-- C1 counterexample: with six input POIs of an unrecognized category at
hour 20, the sixth POI is in the input but lands neither in `immediate`
nor in `nearby` (which is capped at five), so `immediate` and `nearby` do
not cover the input set. -/
theorem generateRecommendations_partition_counterexample :
    testPOI "f" "x" none [] ∈ testSixOther ∧
    testPOI "f" "x" none [] ∉
      (generateRecommendations 20 testUserContext testSixOther).immediate ∧
    testPOI "f" "x" none [] ∉
      (generateRecommendations 20 testUserContext testSixOther).nearby := by
  decide

/-- C1 (amended): `immediate` and `nearby` are disjoint and drawn from the
input POI list, and every input POI lands in exactly one of them whenever
the unselected remainder fits the `nearby` cap of 5; POIs beyond that cap
appear in neither list. -/
theorem generateRecommendations_immediate_nearby (hour : Nat) (uc : UserContext)
    (pois : List POI) :
    (∀ p ∈ (generateRecommendations hour uc pois).immediate, p ∈ pois) ∧
    (∀ p ∈ (generateRecommendations hour uc pois).nearby,
      p ∈ pois ∧ p ∉ (generateRecommendations hour uc pois).immediate) ∧
    (∀ p ∈ pois,
      (pois.filter (fun q =>
        decide (q ∉ (generateRecommendations hour uc pois).immediate))).length ≤ 5 →
      p ∈ (generateRecommendations hour uc pois).immediate ∨
        p ∈ (generateRecommendations hour uc pois).nearby) :=
  ⟨fun p hp => genRec_immediate_mem hour uc pois p hp,
   fun p hp => genRec_nearby_mem hour uc pois p hp,
   fun p hp hlen => genRec_cover hour uc pois p hp hlen⟩

theorem generateRecommendations_immediate_nearby_witness :
    testPOI "a" "x" none [] ∈
      (generateRecommendations 20 testUserContext [testPOI "a" "x" none []]).immediate ∨
    testPOI "a" "x" none [] ∈
      (generateRecommendations 20 testUserContext [testPOI "a" "x" none []]).nearby :=
  (generateRecommendations_immediate_nearby 20 testUserContext
    [testPOI "a" "x" none []]).2.2 (testPOI "a" "x" none []) (by decide) (by decide)

/-- C6: `immediate` has at most 5 elements (3 + 2 per-policy caps),
`immediate` and `nearby` share no POI, and `nearby` has at most 5 elements
and is a sublist of the input (original input order). -/
theorem generateRecommendations_caps (hour : Nat) (uc : UserContext)
    (pois : List POI) :
    (generateRecommendations hour uc pois).immediate.length ≤ 5 ∧
    (∀ p ∈ (generateRecommendations hour uc pois).immediate,
      p ∉ (generateRecommendations hour uc pois).nearby) ∧
    (generateRecommendations hour uc pois).nearby.length ≤ 5 ∧
    (generateRecommendations hour uc pois).nearby.Sublist pois := by
  refine ⟨?_, ?_, ?_, ?_⟩
  · simp only [genRec_def]
    exact immediateFor_length _ _
  · intro p hp hn
    exact (genRec_nearby_mem hour uc pois p hn).2 hp
  · simp only [genRec_def]
    exact List.length_take_le _ _
  · simp only [genRec_def]
    exact (List.take_sublist _ _).trans (List.filter_sublist _)

theorem generateRecommendations_caps_witness :
    (generateRecommendations 8 testUserContext
      [testPOI "c1" "amenity" (some "cafe") []]).immediate.length ≤ 5 ∧
    testPOI "c1" "amenity" (some "cafe") [] ∉
      (generateRecommendations 8 testUserContext
        [testPOI "c1" "amenity" (some "cafe") []]).nearby :=
  ⟨(generateRecommendations_caps 8 testUserContext
      [testPOI "c1" "amenity" (some "cafe") []]).1,
   (generateRecommendations_caps 8 testUserContext
      [testPOI "c1" "amenity" (some "cafe") []]).2.1
      (testPOI "c1" "amenity" (some "cafe") []) (by decide)⟩

/-- C7: `generateRecommendations` selects its selection/labels from the
current hour only through the four fixed ranges (morning [7,10], midday
[11,14], afternoon [15,18], evening otherwise); hour 23 and every hour
outside the three explicit ranges use the evening policy, never an error. -/
theorem generateRecommendations_time_policy (hour : Nat) (uc : UserContext)
    (pois : List POI) :
    generateRecommendations hour uc pois =
      { immediate := (policyApply (hourPolicy hour) (categorizeNearbyPlaces pois)).1
        nearby := (pois.filter (fun poi =>
          decide (poi ∉ (policyApply (hourPolicy hour) (categorizeNearbyPlaces pois)).1))).take 5
        categories := (policyApply (hourPolicy hour) (categorizeNearbyPlaces pois)).2.1
        tips := (policyApply (hourPolicy hour) (categorizeNearbyPlaces pois)).2.2 } ∧
    hourPolicy 23 = TimePolicy.evening ∧
    (∀ h : Nat, ¬(7 ≤ h ∧ h ≤ 10) → ¬(11 ≤ h ∧ h ≤ 14) → ¬(15 ≤ h ∧ h ≤ 18) →
      hourPolicy h = TimePolicy.evening) := by
  refine ⟨?_, rfl, ?_⟩
  · rw [genRec_def, immediateFor_eq_policy]
  · intro h h1 h2 h3
    unfold hourPolicy
    rw [if_neg h1, if_neg h2, if_neg h3]

theorem generateRecommendations_time_policy_witness :
    hourPolicy 23 = TimePolicy.evening ∧ hourPolicy 2 = TimePolicy.evening :=
  ⟨(generateRecommendations_time_policy 23 testUserContext []).2.1,
   (generateRecommendations_time_policy 23 testUserContext []).2.2 2
     (by decide) (by decide) (by decide)⟩

/-- C5: `analyzeAreaContext` thresholds — strictly more than 3 tourism POIs
set `touristArea` and (absent the dining override) `cityType = "tourist"`;
at 3 or fewer, `touristArea` stays false; strictly more than 5 dining POIs
(amenity with subcategory restaurant/cafe/bar) force
`cityType = "commercial"`, overriding the tourist classification; when
neither threshold trips, `cityType` is `"residential"` and `suggestions`
is empty. -/
theorem analyzeAreaContext_thresholds (locationInfo : Option LocationInfo)
    (pois : List POI) :
    ((pois.filter (fun poi => poi.category == "tourism")).length > 3 →
      (analyzeAreaContext locationInfo pois).touristArea = true) ∧
    ((pois.filter (fun poi => poi.category == "tourism")).length > 3 →
      (pois.filter (fun poi => poi.category == "amenity" &&
        ["restaurant", "cafe", "bar"].contains (poi.subcategory.getD ""))).length ≤ 5 →
      (analyzeAreaContext locationInfo pois).cityType = "tourist") ∧
    ((pois.filter (fun poi => poi.category == "tourism")).length ≤ 3 →
      (analyzeAreaContext locationInfo pois).touristArea = false) ∧
    ((pois.filter (fun poi => poi.category == "amenity" &&
        ["restaurant", "cafe", "bar"].contains (poi.subcategory.getD ""))).length > 5 →
      (analyzeAreaContext locationInfo pois).cityType = "commercial") ∧
    ((pois.filter (fun poi => poi.category == "tourism")).length ≤ 3 →
      (pois.filter (fun poi => poi.category == "amenity" &&
        ["restaurant", "cafe", "bar"].contains (poi.subcategory.getD ""))).length ≤ 5 →
      (analyzeAreaContext locationInfo pois).cityType = "residential" ∧
        (analyzeAreaContext locationInfo pois).suggestions = []) := by
  refine ⟨fun ha => ?_, fun ha hb => ?_, fun ha => ?_, fun ha => ?_, fun ha hb => ?_⟩ <;>
  · unfold analyzeAreaContext
    dsimp only
    split_ifs <;> first | rfl | (exact ⟨rfl, rfl⟩) | (exfalso; omega)

theorem analyzeAreaContext_thresholds_witness :
    (analyzeAreaContext none testFourTourism).touristArea = true ∧
    (analyzeAreaContext none testFourTourism).cityType = "tourist" ∧
    (analyzeAreaContext none testThreeTourism).touristArea = false :=
  ⟨(analyzeAreaContext_thresholds none testFourTourism).1 (by decide),
   (analyzeAreaContext_thresholds none testFourTourism).2.1 (by decide) (by decide),
   (analyzeAreaContext_thresholds none testThreeTourism).2.2.1 (by decide)⟩

/-!  Name resolution and placeholder filtering in `parseOverpassResponse`
(C2, C10). -/

lemma toPOI_name (e : OsmElement) : (toPOI e).name = resolveName (e.tags.getD []) := rfl

lemma resolveName_default (tags : List (String × String))
    (hna : jsTruthy (tagLookup tags "name") = false)
    (hnb : jsTruthy (tagLookup tags "brand") = false) :
    resolveName tags = "Unnamed Location" := by
  simp [resolveName, hna, hnb]

lemma resolveName_of_name (tags : List (String × String)) (n : String)
    (h : tagLookup tags "name" = some n) (hne : n ≠ "") :
    resolveName tags = n := by
  simp [resolveName, h, jsTruthy, hne]

lemma resolveName_of_brand (tags : List (String × String)) (b : String)
    (hf : jsTruthy (tagLookup tags "name") = false)
    (h : tagLookup tags "brand" = some b) (hne : b ≠ "") :
    resolveName tags = b := by
  unfold resolveName
  rw [hf, h]
  simp [jsTruthy, hne]

lemma parse_no_placeholder (d : OverpassData) :
    ∀ poi ∈ parseOverpassResponse d, poi.name ≠ "Unnamed Location" := by
  intro poi hp
  unfold parseOverpassResponse at hp
  cases h : d.elements with
  | none => rw [h] at hp; exact absurd hp (List.not_mem_nil poi)
  | some es =>
    rw [h] at hp
    exact bne_iff_ne.1 (List.mem_filter.1 hp).2

lemma toPOI_mem_parse (es : List OsmElement) (e : OsmElement) (he : e ∈ es)
    (hname : (toPOI e).name ≠ "Unnamed Location") :
    toPOI e ∈ parseOverpassResponse ⟨some es⟩ := by
  unfold parseOverpassResponse
  exact List.mem_filter.2 ⟨List.mem_map_of_mem toPOI he, bne_iff_ne.2 hname⟩

/-- C2 (amended): a tagged-node record with neither a (nonempty) name tag
nor a (nonempty) brand tag is never emitted by `parseOverpassResponse`; a
record with a nonempty name tag different from the placeholder
`"Unnamed Location"` is emitted with that name (likewise for a nonempty
brand tag when the name tag is falsy); and no emitted POI carries the
placeholder name.  The original claim's unconditional "a record having
either tag is emitted" fails for the placeholder (and empty) names. -/
theorem parseOverpassResponse_name_resolution (es : List OsmElement) (e : OsmElement) :
    (jsTruthy (tagLookup (e.tags.getD []) "name") = false →
      jsTruthy (tagLookup (e.tags.getD []) "brand") = false →
      ∀ d : OverpassData, toPOI e ∉ parseOverpassResponse d) ∧
    (∀ n : String, tagLookup (e.tags.getD []) "name" = some n → n ≠ "" →
      n ≠ "Unnamed Location" → e ∈ es →
      toPOI e ∈ parseOverpassResponse ⟨some es⟩ ∧ (toPOI e).name = n) ∧
    (∀ b : String, jsTruthy (tagLookup (e.tags.getD []) "name") = false →
      tagLookup (e.tags.getD []) "brand" = some b → b ≠ "" →
      b ≠ "Unnamed Location" → e ∈ es →
      toPOI e ∈ parseOverpassResponse ⟨some es⟩ ∧ (toPOI e).name = b) ∧
    (∀ poi ∈ parseOverpassResponse ⟨some es⟩, poi.name ≠ "Unnamed Location") := by
  refine ⟨?_, ?_, ?_, parse_no_placeholder _⟩
  · intro hna hnb d hmem
    exact parse_no_placeholder d _ hmem
      (by rw [toPOI_name, resolveName_default _ hna hnb])
  · intro n hn hne hnu he
    have hname : (toPOI e).name = n := by rw [toPOI_name, resolveName_of_name _ n hn hne]
    exact ⟨toPOI_mem_parse es e he (by rw [hname]; exact hnu), hname⟩
  · intro b hf hb hne hnu he
    have hname : (toPOI e).name = b := by rw [toPOI_name, resolveName_of_brand _ b hf hb hne]
    exact ⟨toPOI_mem_parse es e he (by rw [hname]; exact hnu), hname⟩

/-- C2 counterexample: a record that does have a name tag (the literal
string `"Unnamed Location"`) is not emitted — `parseOverpassResponse`
returns the empty list on it — refuting "a record having either tag is
emitted with name equal to the name tag". -/
theorem parseOverpassResponse_name_resolution_counterexample :
    tagLookup (testElemPlaceholderName.tags.getD []) "name" = some "Unnamed Location" ∧
    parseOverpassResponse { elements := some [testElemPlaceholderName] } = [] := by
  decide

theorem parseOverpassResponse_name_resolution_witness :
    toPOI { id := 1, lat := 0, lon := 0, tags := some [("name", "Cafe X")] } ∈
      parseOverpassResponse
        { elements := some [{ id := 1, lat := 0, lon := 0, tags := some [("name", "Cafe X")] }] } ∧
    (toPOI { id := 1, lat := 0, lon := 0, tags := some [("name", "Cafe X")] }).name = "Cafe X" :=
  (parseOverpassResponse_name_resolution
      [{ id := 1, lat := 0, lon := 0, tags := some [("name", "Cafe X")] }]
      { id := 1, lat := 0, lon := 0, tags := some [("name", "Cafe X")] }).2.1
    "Cafe X" (by decide) (by decide) (by decide) (by decide)

/-- C10: normalization substitutes the placeholder `"Unnamed Location"` for
nameless records and then filters every POI whose resolved name equals it —
so no output POI carries the placeholder name, and a record whose name tag
is literally `"Unnamed Location"` is excluded from the output even though
it has a usable name tag. -/
theorem parseOverpassResponse_placeholder_excluded (d : OverpassData) :
    (∀ poi ∈ parseOverpassResponse d, poi.name ≠ "Unnamed Location") ∧
    (∀ es : List OsmElement, ∀ e : OsmElement,
      tagLookup (e.tags.getD []) "name" = some "Unnamed Location" →
      toPOI e ∉ parseOverpassResponse { elements := some es }) := by
  refine ⟨parse_no_placeholder d, ?_⟩
  intro es e hn hmem
  have hname : (toPOI e).name = "Unnamed Location" := by
    rw [toPOI_name, resolveName_of_name _ _ hn (by decide)]
  exact parse_no_placeholder { elements := some es } _ hmem hname

theorem parseOverpassResponse_placeholder_excluded_witness :
    toPOI testElemPlaceholderName ∉
      parseOverpassResponse { elements := some [testElemPlaceholderName] } :=
  (parseOverpassResponse_placeholder_excluded
      { elements := some [testElemPlaceholderName] }).2
    [testElemPlaceholderName] testElemPlaceholderName (by decide)

/-- C4 (amended): `determineCategory` inspects amenity, tourism, shop,
leisure in that fixed order, where a key "matches" when its value is
truthy (present and nonempty), returns the first match with the tag value
as subcategory (mapping shop to main "shopping"), and `{main := "other"}`
with no subcategory when nothing matches; a dictionary whose amenity and
tourism values are both truthy yields main "amenity".  The original
claim's key-presence reading fails when the amenity value is the empty
string (falsy in JS). -/
theorem determineCategory_priority (tags : List (String × String)) :
    (jsTruthy (tagLookup tags "amenity") = true →
      determineCategory tags = { main := "amenity", sub := tagLookup tags "amenity" }) ∧
    (jsTruthy (tagLookup tags "amenity") = false →
      jsTruthy (tagLookup tags "tourism") = true →
      determineCategory tags = { main := "tourism", sub := tagLookup tags "tourism" }) ∧
    (jsTruthy (tagLookup tags "amenity") = false →
      jsTruthy (tagLookup tags "tourism") = false →
      jsTruthy (tagLookup tags "shop") = true →
      determineCategory tags = { main := "shopping", sub := tagLookup tags "shop" }) ∧
    (jsTruthy (tagLookup tags "amenity") = false →
      jsTruthy (tagLookup tags "tourism") = false →
      jsTruthy (tagLookup tags "shop") = false →
      jsTruthy (tagLookup tags "leisure") = true →
      determineCategory tags = { main := "leisure", sub := tagLookup tags "leisure" }) ∧
    (jsTruthy (tagLookup tags "amenity") = false →
      jsTruthy (tagLookup tags "tourism") = false →
      jsTruthy (tagLookup tags "shop") = false →
      jsTruthy (tagLookup tags "leisure") = false →
      determineCategory tags = { main := "other", sub := none }) ∧
    (jsTruthy (tagLookup tags "amenity") = true →
      jsTruthy (tagLookup tags "tourism") = true →
      (determineCategory tags).main = "amenity") := by
  refine ⟨fun h1 => ?_, fun h1 h2 => ?_, fun h1 h2 h3 => ?_, fun h1 h2 h3 h4 => ?_,
    fun h1 h2 h3 h4 => ?_, fun h1 h2 => ?_⟩ <;>
  · unfold determineCategory
    simp only [h1]
    first
      | rfl
      | (simp only [h2]; first
          | rfl
          | (simp only [h3]; first
              | rfl
              | (simp only [h4]; rfl)))

/-- C4 counterexample: the tag dictionary `{amenity: "", tourism: "museum"}`
contains both the amenity and the tourism key, yet `determineCategory`
returns main `"tourism"`, because the empty amenity value is falsy —
refuting the key-presence tie-break "both keys yields main == amenity". -/
theorem determineCategory_priority_counterexample :
    tagLookup [("amenity", ""), ("tourism", "museum")] "amenity" = some "" ∧
    tagLookup [("amenity", ""), ("tourism", "museum")] "tourism" = some "museum" ∧
    (determineCategory [("amenity", ""), ("tourism", "museum")]).main = "tourism" := by
  decide

theorem determineCategory_priority_witness :
    (determineCategory [("amenity", "restaurant"), ("tourism", "museum")]).main = "amenity" :=
  (determineCategory_priority [("amenity", "restaurant"), ("tourism", "museum")]).2.2.2.2.2
    (by decide) (by decide)

/-- C8 (amended): when both upstream fetches fail, the inner service
wrappers swallow the errors (`null` location, empty POI list) and
`enrichLocationContext` returns
`{locationInfo := none, nearbyPOIs := [], contextualInfo := {area :=
"Unknown Area", cityType := "residential", touristArea := false,
suggestions := []}}` without raising — not the documented safe-empty
default, which only the outer catch would produce; and an empty upstream
POI list is a normal "no POIs found" result, never an error. -/
theorem enrichLocationContext_failure (e1 e2 : String) :
    enrichLocationContext (.error e1) (.error e2) =
      { locationInfo := none
        nearbyPOIs := []
        contextualInfo :=
          { area := "Unknown Area", cityType := "residential"
            touristArea := false, suggestions := [] } } ∧
    (∀ locFetch : Except String LocationInfo,
      enrichLocationContext locFetch (.ok { elements := some [] }) =
        { locationInfo := getLocationInfoResult locFetch
          nearbyPOIs := []
          contextualInfo := analyzeAreaContext (getLocationInfoResult locFetch) [] }) :=
  ⟨rfl, fun _ => rfl⟩

/-- C8 counterexample: on a failed upstream fetch the enrichment result is
not the documented safe-empty default — its `cityType` is `"residential"`
and its `area` is `"Unknown Area"`, while the default documented for the
catch branch says `"unknown"` and `"Unknown"`. -/
theorem enrichLocationContext_failure_counterexample :
    (enrichLocationContext (.error "network error") (.error "network error")).contextualInfo ≠
      enrichSafeDefault.contextualInfo ∧
    (enrichLocationContext (.error "network error")
      (.error "network error")).contextualInfo.cityType = "residential" ∧
    enrichSafeDefault.contextualInfo.cityType = "unknown" := by
  decide
